import Mathlib

/-!
Verification development for the django-prices repository.

The repository adapts a third-party `Amount`/`Price` money abstraction to a
web framework: locale-aware currency formatting, a composite net/gross price
accessor over two scalar columns, a scalar persistence adapter, and a
deprecated alias template-tag module that forwards to the current surface.

The deprecated alias module `django_prices/templatetags/prices_i18n.py` is
present in the sources and is embedded here directly.  The current surface
(`django_prices/templatetags/prices.py`, the model fields in
`django_prices/models.py`) is referenced by the alias module and by the test
suite but its file is not part of the sources; those definitions are modelled
from the specification, as marked in their doc comments.

Decimal values are embedded as a significand together with a fractional
scale: `⟨m, s⟩` denotes `m / 10^s`.  This mirrors Python `Decimal`, where
`12.00` (significand 1200, scale 2) and `12` (significand 12, scale 0) are
numerically equal but render differently.
-/

/-- Fixed-point decimal value: `significand / 10 ^ scale`. -/
structure Decimal where
  significand : Int
  scale : Nat
  deriving DecidableEq, Repr

/-- Immutable monetary value: numeric value plus ISO currency code. -/
structure Amount where
  value : Decimal
  currency : String
  deriving DecidableEq, Repr

/-- Paired net/gross amounts sharing one currency. -/
structure Price where
  net : Amount
  gross : Amount
  deriving DecidableEq, Repr

/-- Errors raised by the formatting surface. -/
inductive FormatError where
  | unsupportedCurrency (currency : String)
  deriving DecidableEq, Repr

/-- Errors raised by the persistence adapter and the Price constructor. -/
inductive ValueError where
  | currencyMismatch
  deriving DecidableEq, Repr

/-- Observable events of the deprecated alias module: a deprecation notice,
or the invocation of the forwarded current-surface function. -/
inductive Event where
  | deprecationWarning
  | forwardedCall (name : String)
  deriving DecidableEq, Repr

/-- Outcome of a Python-level call: parameter binding can fail with an
unexpected-keyword-argument `TypeError`, or the body can raise. -/
inductive CallError where
  | unexpectedKeywordArgument (name : String)
  | raised (e : FormatError)
  deriving DecidableEq, Repr

/-- Keyword arguments a caller may supply to the template-tag entry points.
`none` means the keyword was not passed. -/
structure Kwargs where
  format : Option String
  html : Option Bool
  normalize : Option Bool
  deriving DecidableEq, Repr

deriving instance DecidableEq for Except

/-- Checked `Price` constructor.  Modelled from the spec: constructing a
Price with mismatched currencies fails (`net.currency == gross.currency`
invariant of the third-party prices library). -/
def Price.make (net gross : Amount) : Except ValueError Price :=
  if net.currency = gross.currency then Except.ok ⟨net, gross⟩
  else Except.error ValueError.currencyMismatch

/-- Group the digits of an integer-part string in threes (the list is the
reversed character list, least-significant digit first). -/
def groupChunks : List Char → List Char
  | a :: b :: c :: d :: rest => a :: b :: c :: ',' :: groupChunks (d :: rest)
  | l => l

/-- Insert locale grouping separators into an integer-part digit string. -/
def groupDigits (s : String) : String :=
  String.mk (groupChunks s.data.reverse).reverse

/-- Render a decimal at its own scale: integer part with grouping, then the
fraction part zero-padded to exactly `scale` digits. -/
def Decimal.render (d : Decimal) : String :=
  let n := d.significand.natAbs
  let p := 10 ^ d.scale
  let sign := if d.significand < 0 then "-" else ""
  let ipart := groupDigits (Nat.repr (n / p))
  if d.scale = 0 then sign ++ ipart
  else
    let fdigits := Nat.repr (n % p)
    let frac := String.mk (List.replicate (d.scale - fdigits.length) '0') ++ fdigits
    sign ++ ipart ++ "." ++ frac

/-- Rescale a decimal to exactly `s` fractional digits.  Scaling up is exact;
scaling down rounds (half away from zero on the magnitude; the spec's
examples never exercise the rounding branch). -/
def Decimal.quantize (d : Decimal) (s : Nat) : Decimal :=
  if d.scale ≤ s then ⟨d.significand * (10 : Int) ^ (s - d.scale), s⟩
  else
    let p : Int := (10 : Int) ^ (d.scale - s)
    let q : Int := ((d.significand.natAbs : Int) + p / 2) / p
    ⟨if d.significand < 0 then -q else q, s⟩

/-- Whether the decimal denotes a whole number (its fraction digits are all
zero). -/
def Decimal.isWhole (d : Decimal) : Bool :=
  d.significand % (10 : Int) ^ d.scale = 0

/-- Integer part of a decimal, truncated toward zero (Python `int()`). -/
def Decimal.intPart (d : Decimal) : Int :=
  d.significand.tdiv ((10 : Int) ^ d.scale)

namespace prices

/-- Modelled from the spec: the currency-precision table of
`django_prices/templatetags/prices.py` (canonical fractional digits per
currency code, e.g. 2 for USD, 0 for JPY, 3 for BHD). -/
def CURRENCY_FRACTIONS : List (String × Nat) :=
  [("USD", 2), ("EUR", 2), ("GBP", 2), ("BTC", 2), ("JPY", 0), ("BHD", 3)]

/-- Modelled from the spec: precision lookup of the current surface; unknown
currency codes fail with an unsupported-currency error. -/
def get_currency_fraction (currency : String) : Except FormatError Nat :=
  match CURRENCY_FRACTIONS.lookup currency with
  | some fraction => Except.ok fraction
  | none => Except.error (FormatError.unsupportedCurrency currency)

/-- Modelled from the spec: locale tags with their own formatting data. -/
def KNOWN_LOCALES : List String := ["en_US", "zh_Hans_CN"]

/-- Modelled from the spec: known legacy locale aliases mapped to their
canonical full locale tags. -/
def LOCALE_ALIASES : List (String × String) := [("zh_CN", "zh_Hans_CN")]

/-- Modelled from the spec: the ambient default locale tag. -/
def DEFAULT_LOCALE : String := "en_US"

/-- Modelled from the spec: locale resolution canonicalizes known legacy
aliases and degrades genuinely unrecognized identifiers to the default
locale instead of erroring. -/
def resolveLocale (locale : String) : String :=
  if KNOWN_LOCALES.contains locale then locale
  else
    match LOCALE_ALIASES.lookup locale with
    | some canonical => canonical
    | none => DEFAULT_LOCALE

/-- Modelled from the spec: locale-specific currency symbol (e.g. `$` for
USD under `en_US`, `US$` under `zh_Hans_CN`); codes without a symbol render
as the code itself. -/
def currencySymbol (tag currency : String) : String :=
  if tag = "zh_Hans_CN" && currency = "USD" then "US$"
  else if currency = "USD" then "$"
  else if currency = "JPY" then "¥"
  else if currency = "EUR" then "€"
  else currency

/-- Modelled from the spec: locale-specific symbol placement table; both
modelled locales place the symbol before the amount, which is also the
fallback. -/
def SYMBOL_BEFORE : List (String × Bool) := [("en_US", true), ("zh_Hans_CN", true)]

/-- Modelled from the spec: whether the resolved locale places the currency
symbol before the numeric text. -/
def symbolBefore (tag : String) : Bool :=
  (SYMBOL_BEFORE.lookup tag).getD true

/-- Modelled from the spec: `normalize_price` of the current surface.
Trailing fractional zeros are stripped, but only down to whole-number
precision: a value whose fraction digits are all zero drops to integer form
(`12.00 → 12`); any other value is left unchanged (`12.20 → 12.20`). -/
def normalize_price (value : Decimal) (normalize : Bool) : Decimal :=
  if normalize && value.isWhole then
    ⟨value.significand / (10 : Int) ^ value.scale, 0⟩
  else value

/-- Modelled from the spec: the numeric portion of a formatted price; the
value is rendered at the currency's canonical fractional-digit count, after
optional normalization. -/
def format_number (value : Decimal) (fraction : Nat) (normalize : Bool) : String :=
  (normalize_price (value.quantize fraction) normalize).render

/-- Modelled from the spec: assemble the final formatted string from the
resolved locale tag, the currency, the output mode and the rendered numeric
text.  Markup mode wraps the currency symbol in a semantic inline element. -/
def assemble (tag currency : String) (html : Bool) (num : String) : String :=
  let sym := currencySymbol tag currency
  let symText :=
    if html then "<span class=\"currency\">" ++ sym ++ "</span>" else sym
  if symbolBefore tag then symText ++ num else num ++ symText

/-- Modelled from the spec: `format_price(value, currency, html=False,
normalize=False)` of the current surface
(`django_prices/templatetags/prices.py`, absent from the sources), with the
ambient active locale passed explicitly.  Precision lookup happens first and
its unsupported-currency failure propagates; locale resolution never fails. -/
def format_price (value : Decimal) (currency : String) (html : Bool)
    (normalize : Bool) (locale : String) : Except FormatError String :=
  match get_currency_fraction currency with
  | Except.error e => Except.error e
  | Except.ok fraction =>
      Except.ok
        (assemble (resolveLocale locale) currency html
          (format_number value fraction normalize))

/-- Modelled from the spec: the current `amount` template filter, a thin
entry point delegating to the formatter; `format = "html"` or `html = true`
selects markup mode. -/
def amount (obj : Amount) (format : String) (html : Bool) (normalize : Bool)
    (locale : String) : Except FormatError String :=
  format_price obj.value obj.currency (html || format == "html") normalize locale

/-- Python call semantics of the current `format_price(value, currency,
html=False, normalize=False)`: binds the `html` and `normalize` keywords;
a `format` keyword is not a parameter and fails binding. -/
def call_format_price (value : Decimal) (currency : String) (kw : Kwargs)
    (locale : String) : Except CallError String :=
  match kw.format with
  | some _ => Except.error (CallError.unexpectedKeywordArgument "format")
  | none =>
      (format_price value currency (kw.html.getD false) (kw.normalize.getD false)
        locale).mapError CallError.raised

/-- Python call semantics of the current `amount(obj, format="text",
html=False, normalize=False)`: every modelled keyword binds. -/
def call_amount (obj : Amount) (kw : Kwargs) (locale : String) :
    Except CallError String :=
  (amount obj (kw.format.getD "text") (kw.html.getD false)
    (kw.normalize.getD false) locale).mapError CallError.raised

end prices

namespace prices_i18n

/-- Embedded from `django_prices/templatetags/prices_i18n.py`:
`deprecation_warning()` emits one deprecation notice via `warnings.warn`. -/
def deprecation_warning : List Event := [Event.deprecationWarning]

/-- Embedded from `django_prices/templatetags/prices_i18n.py`:
`get_currency_fraction(currency)` emits the deprecation notice and then
forwards to the current `get_currency_fraction`.  The first component is the
trace of events in order of occurrence. -/
def get_currency_fraction (currency : String) :
    List Event × Except FormatError Nat :=
  (deprecation_warning ++ [Event.forwardedCall "get_currency_fraction"],
   prices.get_currency_fraction currency)

/-- Embedded from `django_prices/templatetags/prices_i18n.py`:
`format_price(value, currency, html=False)` emits the deprecation notice and
forwards `(value, currency, html)` positionally to the current
`format_price`; the current surface's `normalize` parameter keeps its
default `False`. -/
def format_price (value : Decimal) (currency : String) (html : Bool)
    (locale : String) : List Event × Except FormatError String :=
  (deprecation_warning ++ [Event.forwardedCall "format_price"],
   prices.format_price value currency html false locale)

/-- Embedded from `django_prices/templatetags/prices_i18n.py`:
`amount(obj, format="text")` emits the deprecation notice and forwards
`(obj, format)` positionally to the current `amount`; the current surface's
`html` and `normalize` parameters keep their defaults. -/
def amount (obj : Amount) (format : String) (locale : String) :
    List Event × Except FormatError String :=
  (deprecation_warning ++ [Event.forwardedCall "amount"],
   prices.amount obj format false false locale)

/-- Python call semantics of the legacy `format_price(value, currency,
html=False)`: only `html` is a keyword parameter; a `format` or `normalize`
keyword fails binding with a `TypeError` before the body (and hence the
deprecation notice) runs. -/
def call_format_price (value : Decimal) (currency : String) (kw : Kwargs)
    (locale : String) : List Event × Except CallError String :=
  match kw.format, kw.normalize with
  | some _, _ => ([], Except.error (CallError.unexpectedKeywordArgument "format"))
  | none, some _ =>
      ([], Except.error (CallError.unexpectedKeywordArgument "normalize"))
  | none, none =>
      let r := format_price value currency (kw.html.getD false) locale
      (r.1, r.2.mapError CallError.raised)

/-- Python call semantics of the legacy `amount(obj, format="text")`: only
`format` is a keyword parameter; an `html` or `normalize` keyword fails
binding with a `TypeError` before the body runs. -/
def call_amount (obj : Amount) (kw : Kwargs) (locale : String) :
    List Event × Except CallError String :=
  match kw.html, kw.normalize with
  | some _, _ => ([], Except.error (CallError.unexpectedKeywordArgument "html"))
  | none, some _ =>
      ([], Except.error (CallError.unexpectedKeywordArgument "normalize"))
  | none, none =>
      let r := amount obj (kw.format.getD "text") locale
      (r.1, r.2.mapError CallError.raised)

end prices_i18n

/-- Count of deprecation notices in an event trace. -/
def countWarnings (tr : List Event) : Nat :=
  tr.count Event.deprecationWarning

/-- Modelled from the spec: configuration of a persisted amount column
(`AmountField` of `django_prices/models.py`, absent from the sources): a
decimal-typed storage column plus a fixed currency code. -/
structure AmountField where
  currency : String
  max_digits : Nat
  decimal_places : Nat
  deriving DecidableEq, Repr

/-- Values the persistence layer may hand to the read path: a raw stored
decimal, or an already-wrapped Amount (which is validated against the
column's currency). -/
inductive DbValue where
  | raw (d : Decimal)
  | wrapped (a : Amount)
  deriving DecidableEq, Repr

/-- Modelled from the spec: write path of the persistence adapter
(`AmountField.get_prep_value`): extract the numeric value from the Amount,
discarding the currency, which is implicit from the column configuration. -/
def AmountField.get_prep_value (_f : AmountField) (value : Option Amount) :
    Option Decimal :=
  value.map Amount.value

/-- Modelled from the spec: read path of the persistence adapter
(`AmountField.from_db_value`): a null stored value reads back as unset; a
raw decimal is wrapped into an Amount carrying the column's currency; an
Amount with a foreign currency fails validation. -/
def AmountField.from_db_value (f : AmountField) (value : Option DbValue) :
    Except ValueError (Option Amount) :=
  match value with
  | none => Except.ok none
  | some (DbValue.raw d) => Except.ok (some ⟨d, f.currency⟩)
  | some (DbValue.wrapped a) =>
      if a.currency = f.currency then Except.ok (some a)
      else Except.error ValueError.currencyMismatch

/-- State of the two sibling scalar columns backing a composite price
(`price_net` and `price_gross` of the test model); `none` is an unset
column. -/
structure PriceRow where
  price_net : Option Amount
  price_gross : Option Amount
  deriving DecidableEq, Repr

/-- Modelled from the spec: the setter of the composite price accessor
(`PriceField.__set__` of `django_prices/models.py`): a Price is decomposed,
`.net` into the net column and `.gross` into the gross column; setting unset
clears both columns. -/
def price_set (_row : PriceRow) (p : Option Price) : PriceRow :=
  ⟨p.map Price.net, p.map Price.gross⟩

/-- Modelled from the spec: the getter of the composite price accessor
(`PriceField.__get__`): both columns unset yields unset; otherwise a Price
is constructed from what is present (a deliberately permissive read, the
missing side defaulting to the present one), propagating the Price
constructor's currency-mismatch failure. -/
def price_get (row : PriceRow) : Except ValueError (Option Price) :=
  match row.price_net, row.price_gross with
  | none, none => Except.ok none
  | some n, none => (Price.make n n).map some
  | none, some g => (Price.make g g).map some
  | some n, some g => (Price.make n g).map some

/-- Helper: a successful precision lookup makes `format_price` succeed with
the assembled string. -/
theorem format_price_ok (value : Decimal) (c : String) (html norm : Bool)
    (locale : String) (fr : Nat)
    (h : prices.get_currency_fraction c = Except.ok fr) :
    prices.format_price value c html norm locale
      = Except.ok
          (prices.assemble (prices.resolveLocale locale) c html
            (prices.format_number value fr norm)) := by
  unfold prices.format_price
  rw [h]

/-- Helper: quantizing always lands on the requested scale. -/
theorem quantize_scale (d : Decimal) (s : Nat) : (d.quantize s).scale = s := by
  unfold Decimal.quantize
  split <;> rfl

/-- Helper: with the flag off, `normalize_price` is the identity. -/
theorem normalize_price_false (d : Decimal) :
    prices.normalize_price d false = d := rfl

/-- Helper: on a scale-zero decimal, normalization is the identity. -/
theorem normalize_price_scale_zero (d : Decimal) (h : d.scale = 0) :
    prices.normalize_price d true = d := by
  obtain ⟨m, s⟩ := d
  simp only at h
  subst h
  simp [prices.normalize_price, Decimal.isWhole, pow_zero, Int.emod_one,
    Int.ediv_one]

/-- Helper: normalization never changes the truncated integer part. -/
theorem normalize_price_intPart (d : Decimal) (b : Bool) :
    (prices.normalize_price d b).intPart = d.intPart := by
  cases b with
  | false => rfl
  | true =>
    by_cases w : d.isWhole = true
    · have hdvd : ((10 : Int) ^ d.scale) ∣ d.significand := by
        apply Int.dvd_of_emod_eq_zero
        simpa [Decimal.isWhole] using w
      have hp : ((10 : Int) ^ d.scale) ≠ 0 := pow_ne_zero _ (by norm_num)
      obtain ⟨k, hk⟩ := hdvd
      simp [prices.normalize_price, w, Decimal.intPart, hk,
        Int.mul_ediv_cancel_left _ hp, Int.mul_tdiv_cancel_left _ hp,
        Int.tdiv_one]
    · simp [prices.normalize_price, w]

/-- Claim C1: the deprecated alias surface is not call-compatible with the
current surface.  At the failing input of the repository's own test
`test_format_normalize_price`, the legacy `format_price` rejects the
`normalize` keyword that the current `format_price` accepts, and the legacy
`amount` rejects the `html` keyword the current `amount` accepts; the
current surface returns the strings the tests expect. -/
theorem legacy_rejects_current_call_forms :
    prices_i18n.call_format_price ⟨12, 0⟩ "USD" ⟨none, none, some true⟩ "en_US"
        = ([], Except.error (CallError.unexpectedKeywordArgument "normalize"))
    ∧ prices.call_format_price ⟨12, 0⟩ "USD" ⟨none, none, some true⟩ "en_US"
        = Except.ok "$12"
    ∧ prices_i18n.call_amount ⟨⟨10, 0⟩, "USD"⟩ ⟨none, some true, none⟩ "en_US"
        = ([], Except.error (CallError.unexpectedKeywordArgument "html"))
    ∧ prices.call_amount ⟨⟨10, 0⟩, "USD"⟩ ⟨none, some true, none⟩ "en_US"
        = Except.ok "<span class=\"currency\">$</span>10.00" :=
  ⟨by decide, by decide, by decide, by decide⟩

/-- Claim C2: for every currency with two canonical fractional digits,
formatting `12.00` with normalize yields numeric text `12` and without
normalize yields `12.00`; normalization never changes the integer part,
strips at most to integer form, `12.20` stays `12.20`, and for the
zero-fractional-digit currency JPY normalization is a no-op. -/
theorem two_digit_normalization (c : String)
    (h : prices.get_currency_fraction c = Except.ok 2)
    (html : Bool) (locale : String) :
    prices.format_price ⟨1200, 2⟩ c html true locale
        = Except.ok
            (prices.assemble (prices.resolveLocale locale) c html "12")
    ∧ prices.format_price ⟨1200, 2⟩ c html false locale
        = Except.ok
            (prices.assemble (prices.resolveLocale locale) c html "12.00")
    ∧ prices.format_price ⟨1220, 2⟩ c html true locale
        = Except.ok
            (prices.assemble (prices.resolveLocale locale) c html "12.20")
    ∧ (∀ (d : Decimal) (b : Bool),
        (prices.normalize_price d b).intPart = d.intPart)
    ∧ (∀ d : Decimal,
        (prices.normalize_price d true).scale = 0
        ∨ prices.normalize_price d true = d)
    ∧ prices.get_currency_fraction "JPY" = Except.ok 0
    ∧ (∀ (v : Decimal) (html2 : Bool) (locale2 : String),
        prices.format_price v "JPY" html2 true locale2
          = prices.format_price v "JPY" html2 false locale2) := by
  refine ⟨?_, ?_, ?_, normalize_price_intPart, ?_, by decide, ?_⟩
  · rw [format_price_ok _ _ _ _ _ _ h,
      show prices.format_number ⟨1200, 2⟩ 2 true = "12" from by decide]
  · rw [format_price_ok _ _ _ _ _ _ h,
      show prices.format_number ⟨1200, 2⟩ 2 false = "12.00" from by decide]
  · rw [format_price_ok _ _ _ _ _ _ h,
      show prices.format_number ⟨1220, 2⟩ 2 true = "12.20" from by decide]
  · intro d
    by_cases w : d.isWhole = true
    · left
      simp [prices.normalize_price, w]
    · right
      simp [prices.normalize_price, w]
  · intro v html2 locale2
    have h0 : prices.get_currency_fraction "JPY" = Except.ok 0 := by decide
    rw [format_price_ok _ _ _ _ _ _ h0, format_price_ok _ _ _ _ _ _ h0,
      show prices.format_number v 0 true = prices.format_number v 0 false from ?_]
    unfold prices.format_number
    rw [normalize_price_scale_zero _ (quantize_scale v 0), normalize_price_false]

/-- Witness for claim C2 at the concrete two-fraction-digit currency USD,
plain output mode, and the default locale. -/
theorem two_digit_normalization_witness :
    prices.format_price ⟨1200, 2⟩ "USD" false true "en_US"
        = Except.ok
            (prices.assemble (prices.resolveLocale "en_US") "USD" false "12")
    ∧ prices.format_price ⟨1200, 2⟩ "USD" false false "en_US"
        = Except.ok
            (prices.assemble (prices.resolveLocale "en_US") "USD" false "12.00")
    ∧ prices.format_price ⟨1220, 2⟩ "USD" false true "en_US"
        = Except.ok
            (prices.assemble (prices.resolveLocale "en_US") "USD" false "12.20")
    ∧ (∀ (d : Decimal) (b : Bool),
        (prices.normalize_price d b).intPart = d.intPart)
    ∧ (∀ d : Decimal,
        (prices.normalize_price d true).scale = 0
        ∨ prices.normalize_price d true = d)
    ∧ prices.get_currency_fraction "JPY" = Except.ok 0
    ∧ (∀ (v : Decimal) (html2 : Bool) (locale2 : String),
        prices.format_price v "JPY" html2 true locale2
          = prices.format_price v "JPY" html2 false locale2) :=
  two_digit_normalization "USD" (by decide) false "en_US"

/-- Claim C3: setting the composite price accessor to a Price writes its net
and gross sides into the two columns (each readable individually), and
setting unset clears both columns so a composite read yields unset. -/
theorem composite_set_then_read (row : PriceRow) (p : Price) :
    (price_set row (some p)).price_net = some p.net
    ∧ (price_set row (some p)).price_gross = some p.gross
    ∧ (price_set row none).price_net = none
    ∧ (price_set row none).price_gross = none
    ∧ price_get (price_set row none) = Except.ok none :=
  ⟨rfl, rfl, rfl, rfl, rfl⟩

/-- Claim C4: the persistence adapter's write path followed by its read path
is the identity on amounts carrying the column's fixed currency. -/
theorem amount_field_roundtrip (f : AmountField) (v : Decimal) :
    f.from_db_value
        ((f.get_prep_value (some ⟨v, f.currency⟩)).map DbValue.raw)
      = Except.ok (some ⟨v, f.currency⟩) := rfl

/-- Claim C5: constructing a Price fails exactly when the two currencies
differ, and a composite read over two set columns returns exactly the
checked constructor's outcome, propagating its failure. -/
theorem price_mismatch_propagation (a b : Amount) :
    (Price.make a b = Except.error ValueError.currencyMismatch
        ↔ a.currency ≠ b.currency)
    ∧ price_get ⟨some a, some b⟩ = (Price.make a b).map some := by
  constructor
  · unfold Price.make
    by_cases h : a.currency = b.currency <;> simp [h]
  · rfl

/-- Claim C6: on the read path a null stored value reads back as unset and
never as any Amount, while a non-null raw value reads back as an Amount
carrying the column's currency. -/
theorem read_path_null_is_unset (f : AmountField) (v : Decimal) (a : Amount) :
    f.from_db_value none = Except.ok none
    ∧ f.from_db_value none ≠ Except.ok (some a)
    ∧ f.from_db_value (some (DbValue.raw v))
        = Except.ok (some ⟨v, f.currency⟩) := by
  refine ⟨rfl, ?_, rfl⟩
  intro hcon
  simp [AmountField.from_db_value] at hcon

/-- Witness for claim C6 at a concrete column, stored value and amount. -/
theorem read_path_null_is_unset_witness :
    (AmountField.mk "BTC" 9 2).from_db_value none = Except.ok none
    ∧ (AmountField.mk "BTC" 9 2).from_db_value none
        ≠ Except.ok (some ⟨⟨0, 0⟩, "BTC"⟩)
    ∧ (AmountField.mk "BTC" 9 2).from_db_value (some (DbValue.raw ⟨7, 0⟩))
        = Except.ok (some ⟨⟨7, 0⟩, "BTC"⟩) :=
  read_path_null_is_unset (AmountField.mk "BTC" 9 2) ⟨7, 0⟩ ⟨⟨0, 0⟩, "BTC"⟩

/-- Claim C7: formatting never errors due to locale resolution; the known
legacy alias `zh_CN` canonicalizes to `zh_Hans_CN` and the unrecognized
identifier `oO_Oo` falls back to the default locale, a formatted string
still being produced for every locale identifier. -/
theorem locale_resolution_total (locale : String) (v : Decimal) (c : String)
    (fr : Nat) (html norm : Bool)
    (h : prices.get_currency_fraction c = Except.ok fr) :
    (∃ s, prices.format_price v c html norm locale = Except.ok s)
    ∧ prices.resolveLocale "zh_CN" = "zh_Hans_CN"
    ∧ prices.resolveLocale "oO_Oo" = prices.DEFAULT_LOCALE :=
  ⟨⟨_, format_price_ok v c html norm locale fr h⟩, by decide, by decide⟩

/-- Witness for claim C7 at the made-up locale of `test_non_existing_locale`
and the currency USD. -/
theorem locale_resolution_total_witness :
    (∃ s, prices.format_price ⟨10, 0⟩ "USD" true false "oO_Oo" = Except.ok s)
    ∧ prices.resolveLocale "zh_CN" = "zh_Hans_CN"
    ∧ prices.resolveLocale "oO_Oo" = prices.DEFAULT_LOCALE :=
  locale_resolution_total "oO_Oo" ⟨10, 0⟩ "USD" 2 true false (by decide)

/-- Claim C8: every execution of each of the three legacy entry points emits
exactly one deprecation notice, and it is the first event of the call. -/
theorem one_notice_per_legacy_call (currency : String) (value : Decimal)
    (html : Bool) (locale : String) (obj : Amount) (format : String) :
    countWarnings (prices_i18n.get_currency_fraction currency).1 = 1
    ∧ (prices_i18n.get_currency_fraction currency).1.head?
        = some Event.deprecationWarning
    ∧ countWarnings (prices_i18n.format_price value currency html locale).1 = 1
    ∧ (prices_i18n.format_price value currency html locale).1.head?
        = some Event.deprecationWarning
    ∧ countWarnings (prices_i18n.amount obj format locale).1 = 1
    ∧ (prices_i18n.amount obj format locale).1.head?
        = some Event.deprecationWarning :=
  ⟨rfl, rfl, rfl, rfl, rfl, rfl⟩

/-- Claim C9: the legacy `format_price` accepts exactly `(value, currency,
html)`, forwarding `html` as the third positional argument of the current
`format_price` with `normalize` left at its default; a `normalize` keyword
fails binding instead of forwarding, as do `html` and `normalize` keywords
on the legacy `amount`, whose second parameter is named `format`. -/
theorem legacy_call_surface (value : Decimal) (currency : String)
    (locale : String) (obj : Amount) (b hb : Bool) (fm : String) :
    prices_i18n.call_format_price value currency ⟨none, some hb, none⟩ locale
        = ((prices_i18n.format_price value currency hb locale).1,
           (prices.format_price value currency hb false locale).mapError
             CallError.raised)
    ∧ prices_i18n.call_format_price value currency ⟨none, none, none⟩ locale
        = ((prices_i18n.format_price value currency false locale).1,
           (prices.format_price value currency false false locale).mapError
             CallError.raised)
    ∧ prices_i18n.call_format_price value currency ⟨none, none, some b⟩ locale
        = ([], Except.error (CallError.unexpectedKeywordArgument "normalize"))
    ∧ prices_i18n.call_amount obj ⟨none, some hb, none⟩ locale
        = ([], Except.error (CallError.unexpectedKeywordArgument "html"))
    ∧ prices_i18n.call_amount obj ⟨none, none, some b⟩ locale
        = ([], Except.error (CallError.unexpectedKeywordArgument "normalize"))
    ∧ prices_i18n.call_amount obj ⟨some fm, none, none⟩ locale
        = ((prices_i18n.amount obj fm locale).1,
           (prices.amount obj fm false false locale).mapError
             CallError.raised) :=
  ⟨rfl, rfl, rfl, rfl, rfl, rfl⟩

/-- Claim C10: in every legacy entry point the deprecation notice strictly
precedes the forwarded call in the event trace, and the notice is emitted
even when the forwarded call itself raises, as at the unsupported currency
`QQQ`. -/
theorem notice_precedes_forwarding (value : Decimal) (currency : String)
    (html : Bool) (locale : String) (obj : Amount) (format : String) :
    (prices_i18n.format_price value currency html locale).1
        = [Event.deprecationWarning, Event.forwardedCall "format_price"]
    ∧ (prices_i18n.get_currency_fraction currency).1
        = [Event.deprecationWarning,
           Event.forwardedCall "get_currency_fraction"]
    ∧ (prices_i18n.amount obj format locale).1
        = [Event.deprecationWarning, Event.forwardedCall "amount"]
    ∧ (prices_i18n.format_price ⟨1, 0⟩ "QQQ" false "en_US").2
        = Except.error (FormatError.unsupportedCurrency "QQQ")
    ∧ (prices_i18n.format_price ⟨1, 0⟩ "QQQ" false "en_US").1
        = [Event.deprecationWarning, Event.forwardedCall "format_price"] :=
  ⟨rfl, rfl, rfl, by decide, rfl⟩
